import Mathlib

/-!
Verification of the supplements-ency Evidence Scoring Engine and Stack
Composition Analyzer.

The JavaScript source is shallowly embedded: JS numbers are modelled as exact
rationals/reals (study counts are natural numbers; the sigmoid normalisation
uses `Real.exp`), JS arrays as `List`, JS objects used as ordered string-keyed
maps as association lists in insertion order, and `Array.prototype.sort`
(stable since ES2019) as a stable insertion sort by the comparator's numeric
key.  Strings here are BMP-only, so JS UTF-16 code-unit operations
(`substring`, `includes`, `split`) coincide with per-character operations.
-/

namespace SuppEncy

/-- Evidence counts of one supplement.  Fields may be absent in the JSON data
(`undefined` in JS), hence `Option Nat`; the engine reads each with `x || 0`. -/
structure Evidence where
  totalStudies : Option Nat
  humanStudies : Option Nat
  rcts : Option Nat
  metaAnalyses : Option Nat
  systematicReviews : Option Nat
  deriving DecidableEq, Repr

/-- JS `x || 0` on a possibly-absent non-negative number: `undefined` gives 0,
and the number 0 (falsy) also gives 0, i.e. exactly `Option.getD 0`. -/
def jsOr0 (x : Option Nat) : Nat :=
  match x with
  | none => 0
  | some v => v

/-- Weights for each study type (`WEIGHTS` in the source). -/
structure StudyWeights where
  metaAnalyses : ℚ
  systematicReviews : ℚ
  rcts : ℚ
  humanStudies : ℚ
  deriving DecidableEq, Repr

def WEIGHTS : StudyWeights :=
  { metaAnalyses := 10, systematicReviews := 6, rcts := 2, humanStudies := 0.2 }

/-- Normalization constant (`NORM_FACTOR` in the source). -/
def NORM_FACTOR : ℝ := 200

/-- `rawScore(evidence)` — the raw weighted evidence value.  Exact rational
arithmetic models the JS number arithmetic. -/
def rawScore (evidence : Evidence) : ℚ :=
  (jsOr0 evidence.metaAnalyses : ℚ) * WEIGHTS.metaAnalyses +
  (jsOr0 evidence.systematicReviews : ℚ) * WEIGHTS.systematicReviews +
  (jsOr0 evidence.rcts : ℚ) * WEIGHTS.rcts +
  (jsOr0 evidence.humanStudies : ℚ) * WEIGHTS.humanStudies

/-- `calculateScore(evidence) = Math.round(100 * (1 - Math.exp(-raw / NORM_FACTOR)))`.
`Math.round x = ⌊x + 1/2⌋` is Mathlib's `round`. -/
noncomputable def calculateScore (evidence : Evidence) : ℤ :=
  round ((100 : ℝ) * (1 - Real.exp (-(rawScore evidence : ℝ) / NORM_FACTOR)))

end SuppEncy

namespace SuppEncy

lemma rawScore_nonneg (evidence : Evidence) : 0 ≤ rawScore evidence := by
  have h1 : (0:ℚ) ≤ (jsOr0 evidence.metaAnalyses : ℚ) := by positivity
  have h2 : (0:ℚ) ≤ (jsOr0 evidence.systematicReviews : ℚ) := by positivity
  have h3 : (0:ℚ) ≤ (jsOr0 evidence.rcts : ℚ) := by positivity
  have h4 : (0:ℚ) ≤ (jsOr0 evidence.humanStudies : ℚ) := by positivity
  unfold rawScore WEIGHTS
  dsimp only
  nlinarith

/-- `round` is monotone on ℝ (via `round x = ⌊x + 1/2⌋`). -/
lemma round_mono_of_le {x y : ℝ} (h : x ≤ y) : round x ≤ round y := by
  rw [round_eq, round_eq]
  exact Int.floor_mono (by linarith)

/-- The sigmoid argument is in `[0, 100)` for non-negative raw scores. -/
lemma sigmoid_bounds (evidence : Evidence) :
    0 ≤ (100 : ℝ) * (1 - Real.exp (-(rawScore evidence : ℝ) / NORM_FACTOR)) ∧
    (100 : ℝ) * (1 - Real.exp (-(rawScore evidence : ℝ) / NORM_FACTOR)) < 100 := by
  have hr : (0:ℝ) ≤ (rawScore evidence : ℝ) := by
    exact_mod_cast rawScore_nonneg evidence
  have hN : (0:ℝ) < NORM_FACTOR := by norm_num [NORM_FACTOR]
  have harg : -(rawScore evidence : ℝ) / NORM_FACTOR ≤ 0 := by
    apply div_nonpos_of_nonpos_of_nonneg <;> linarith
  have hle : Real.exp (-(rawScore evidence : ℝ) / NORM_FACTOR) ≤ 1 :=
    Real.exp_le_one_iff.mpr harg
  have hpos : 0 < Real.exp (-(rawScore evidence : ℝ) / NORM_FACTOR) := Real.exp_pos _
  constructor <;> nlinarith

lemma calculateScore_nonneg (evidence : Evidence) : 0 ≤ calculateScore evidence := by
  have h := (sigmoid_bounds evidence).1
  calc (0:ℤ) = round (0:ℝ) := by simp
  _ ≤ calculateScore evidence := round_mono_of_le h

lemma calculateScore_le_100 (evidence : Evidence) : calculateScore evidence ≤ 100 := by
  have h := (sigmoid_bounds evidence).2
  calc calculateScore evidence ≤ round (100:ℝ) := round_mono_of_le (le_of_lt h)
  _ = 100 := by simp

/-- Evidence input with 200 meta-analyses and every other field absent. -/
def evMeta200 : Evidence :=
  { totalStudies := none, humanStudies := none, rcts := none,
    metaAnalyses := some 200, systematicReviews := none }

lemma rawScore_evMeta200 : rawScore evMeta200 = 2000 := by
  norm_num [rawScore, evMeta200, jsOr0, WEIGHTS]

lemma exp_ten_gt_200 : (200 : ℝ) < Real.exp 10 := by
  have h1 : Real.exp 10 = Real.exp 1 ^ (10 : ℕ) := by
    rw [← Real.exp_nat_mul]
    norm_num
  have h2 : (2.7 : ℝ) < Real.exp 1 := by
    have := Real.exp_one_gt_d9
    linarith
  have h3 : (2.7 : ℝ) ^ (10 : ℕ) ≤ Real.exp 1 ^ (10 : ℕ) := by
    apply pow_le_pow_left₀ (by norm_num) (le_of_lt h2)
  have h4 : (200 : ℝ) < (2.7 : ℝ) ^ (10 : ℕ) := by norm_num
  linarith

lemma calculateScore_evMeta200 : calculateScore evMeta200 = 100 := by
  have hraw : ((rawScore evMeta200 : ℝ)) = 2000 := by
    rw [rawScore_evMeta200]; norm_num
  have harg : -(rawScore evMeta200 : ℝ) / NORM_FACTOR = -10 := by
    rw [hraw]; norm_num [NORM_FACTOR]
  have hexp : Real.exp (-10) < 1 / 200 := by
    rw [Real.exp_neg]
    rw [inv_lt_comm₀ (Real.exp_pos 10) (by norm_num)]
    simpa using exp_ten_gt_200
  have hpos : 0 < Real.exp (-10) := Real.exp_pos _
  unfold calculateScore
  rw [harg, round_eq]
  have hlow : (100 : ℝ) ≤ 100 * (1 - Real.exp (-10)) + 1 / 2 := by nlinarith
  have hhigh : 100 * (1 - Real.exp (-10)) + 1 / 2 < 101 := by nlinarith
  rw [show ((100 : ℤ)) = ((100 : ℤ)) from rfl]
  exact_mod_cast Int.floor_eq_iff.mpr ⟨by exact_mod_cast hlow, by push_cast; linarith⟩

lemma rawScore_mono {e e' : Evidence}
    (hm : jsOr0 e.metaAnalyses ≤ jsOr0 e'.metaAnalyses)
    (hs : jsOr0 e.systematicReviews ≤ jsOr0 e'.systematicReviews)
    (hr : jsOr0 e.rcts ≤ jsOr0 e'.rcts)
    (hh : jsOr0 e.humanStudies ≤ jsOr0 e'.humanStudies) :
    rawScore e ≤ rawScore e' := by
  have hm' : (jsOr0 e.metaAnalyses : ℚ) ≤ (jsOr0 e'.metaAnalyses : ℚ) := by exact_mod_cast hm
  have hs' : (jsOr0 e.systematicReviews : ℚ) ≤ (jsOr0 e'.systematicReviews : ℚ) := by
    exact_mod_cast hs
  have hr' : (jsOr0 e.rcts : ℚ) ≤ (jsOr0 e'.rcts : ℚ) := by exact_mod_cast hr
  have hh' : (jsOr0 e.humanStudies : ℚ) ≤ (jsOr0 e'.humanStudies : ℚ) := by exact_mod_cast hh
  unfold rawScore WEIGHTS
  dsimp only
  nlinarith

lemma calculateScore_mono {e e' : Evidence} (h : rawScore e ≤ rawScore e') :
    calculateScore e ≤ calculateScore e' := by
  unfold calculateScore
  apply round_mono_of_le
  have h' : (rawScore e : ℝ) ≤ (rawScore e' : ℝ) := by exact_mod_cast h
  have hN : (0:ℝ) < NORM_FACTOR := by norm_num [NORM_FACTOR]
  have hexp : Real.exp (-(rawScore e' : ℝ) / NORM_FACTOR) ≤
      Real.exp (-(rawScore e : ℝ) / NORM_FACTOR) := by
    apply Real.exp_le_exp.mpr
    simp only [NORM_FACTOR]
    linarith
  nlinarith

end SuppEncy

namespace SuppEncy

/-- Tier information returned by `getTier`. -/
structure TierInfo where
  tier : String
  label : String
  color : String
  bgColor : String
  description : String
  deriving DecidableEq, Repr

/-- `getTier(score)` — tier classification by fixed thresholds. -/
def getTier (score : ℤ) : TierInfo :=
  if score ≥ 90 then
    { tier := "S", label := "Gold Standard", color := "#FFD700",
      bgColor := "rgba(255, 215, 0, 0.12)",
      description := "Extensively studied with scientific consensus on efficacy. Supported by numerous meta-analyses and hundreds of RCTs." }
  else if score ≥ 70 then
    { tier := "A", label := "Strong Evidence", color := "#4CAF50",
      bgColor := "rgba(76, 175, 80, 0.12)",
      description := "Robust clinical evidence from multiple high-quality trials. Well-established in the research literature." }
  else if score ≥ 50 then
    { tier := "B", label := "Moderate Evidence", color := "#2196F3",
      bgColor := "rgba(33, 150, 243, 0.12)",
      description := "Growing body of clinical evidence. Multiple RCTs support efficacy, though more research would strengthen conclusions." }
  else if score ≥ 30 then
    { tier := "C", label := "Emerging Evidence", color := "#FF9800",
      bgColor := "rgba(255, 152, 0, 0.12)",
      description := "Promising early clinical data. Some RCTs available, but the evidence base is still developing." }
  else
    { tier := "D", label := "Preliminary", color := "#F44336",
      bgColor := "rgba(244, 67, 54, 0.12)",
      description := "Limited clinical evidence. Mostly preclinical or observational data. Requires significantly more human research." }

/-- The `breakdown` object produced by `assess`. -/
structure Breakdown where
  totalStudies : Nat
  humanStudies : Nat
  rcts : Nat
  metaAnalyses : Nat
  systematicReviews : Nat
  rawWeighted : ℤ
  deriving DecidableEq, Repr

/-- Result of `assess`: `{ score, ...tierInfo, breakdown }` (the JS spread of the
tier object is flattened into explicit fields). -/
structure Assessment where
  score : ℤ
  tier : String
  label : String
  color : String
  bgColor : String
  description : String
  breakdown : Breakdown
  deriving DecidableEq, Repr

/-- `assess(evidence)` — complete evidence assessment. -/
noncomputable def assess (evidence : Evidence) : Assessment :=
  let score := calculateScore evidence
  let tierInfo := getTier score
  { score := score, tier := tierInfo.tier, label := tierInfo.label,
    color := tierInfo.color, bgColor := tierInfo.bgColor,
    description := tierInfo.description,
    breakdown :=
      { totalStudies := jsOr0 evidence.totalStudies,
        humanStudies := jsOr0 evidence.humanStudies,
        rcts := jsOr0 evidence.rcts,
        metaAnalyses := jsOr0 evidence.metaAnalyses,
        systematicReviews := jsOr0 evidence.systematicReviews,
        rawWeighted := round (rawScore evidence) } }

/-- A category record; display metadata (icon, color) is pass-through data. -/
structure Category where
  id : String
  name : String
  icon : String
  color : String
  deriving DecidableEq, Repr

/-- An InteractionDeclaration owned by a supplement. -/
structure Interaction where
  substance : String
  effect : String
  severity : String
  deriving DecidableEq, Repr

/-- Dosage description of a supplement. -/
structure Dosage where
  standard : String
  optimal : String
  timing : String
  deriving DecidableEq, Repr

/-- A catalog item (supplement).  Fields are those the analyzer reads. -/
structure Supplement where
  id : String
  name : String
  aliases : List String
  categories : List String
  evidence : Evidence
  mechanismOfAction : String
  dosage : Dosage
  interactions : List Interaction
  benefits : List String
  sideEffects : List String
  deriving DecidableEq, Repr

/-- Does `s` start with `t`? (helper for the JS `String.prototype.includes`
model; character-level since all strings involved are BMP). -/
def leadMatch : List Char → List Char → Bool
  | _, [] => true
  | [], _ :: _ => false
  | c :: s, d :: t => c == d && leadMatch s t

/-- Does `sub` occur contiguously in `s`? -/
def includesList (sub : List Char) : List Char → Bool
  | [] => sub.isEmpty
  | c :: s => leadMatch (c :: s) sub || includesList sub s

/-- JS `s.includes(sub)`. -/
def jsIncludes (s sub : String) : Bool :=
  includesList sub.data s.data

/-- JS `s.toLowerCase()`, modelled per character.  (JS lowers UTF-16 text; on
the BMP strings of this catalog this is per-character lowering.) -/
def jsToLower (s : String) : String :=
  String.mk (s.data.map Char.toLower)

/-- JS `s.substring(0, n)` (code units = characters on BMP strings). -/
def jsTake (s : String) (n : Nat) : String :=
  String.mk (s.data.take n)

/-- JS `s.split(' ')[0]`: the characters before the first space (the empty
string when `s` is empty or starts with a space, exactly as in JS). -/
def firstToken (s : String) : String :=
  String.mk (s.data.takeWhile (fun c => c ≠ ' '))

/-- Lexicographic order on character lists — the order JS default `sort()`
uses on (BMP) strings, by code units. -/
def listLe : List Char → List Char → Bool
  | [], _ => true
  | _ :: _, [] => false
  | c :: s, d :: t => if c < d then true else if d < c then false else listLe s t

lemma leadMatch_nil (s : List Char) : leadMatch s [] = true := by
  cases s <;> rfl

lemma jsIncludes_empty (s : String) : jsIncludes s "" = true := by
  unfold jsIncludes
  show includesList [] s.data = true
  cases h : s.data with
  | nil => rfl
  | cons c t => simp [includesList, leadMatch_nil]

lemma jsToLower_empty : jsToLower "" = "" := rfl

/-- Stable insertion by ascending integer key: the new element goes after every
element whose key is `≤` its own, which is exactly the order a stable
comparator sort produces. -/
def insertByKey (key : α → ℤ) (x : α) : List α → List α
  | [] => [x]
  | y :: ys => if key y ≤ key x then y :: insertByKey key x ys else x :: y :: ys

/-- Model of JS `Array.prototype.sort` (stable, ES2019) with a comparator of
the form `(a, b) => key a - key b`: inserting the elements left to right
yields the unique stable ascending-by-key ordering. -/
def stableSortBy (key : α → ℤ) (l : List α) : List α :=
  l.foldl (fun acc x => insertByKey key x acc) []

lemma insertByKey_perm (key : α → ℤ) (x : α) (l : List α) :
    List.Perm (insertByKey key x l) (x :: l) := by
  induction l with
  | nil => exact List.Perm.refl _
  | cons y ys ih =>
    unfold insertByKey
    split
    · exact (ih.cons y).trans (List.Perm.swap x y ys)
    · exact List.Perm.refl _

lemma stableSortBy_perm (key : α → ℤ) (l : List α) : List.Perm (stableSortBy key l) l := by
  suffices h : ∀ (l acc : List α),
      List.Perm (l.foldl (fun acc x => insertByKey key x acc) acc) (acc ++ l) by
    simpa using h l []
  intro l
  induction l with
  | nil => intro acc; simp
  | cons x xs ih =>
    intro acc
    have step : (x :: xs).foldl (fun acc x => insertByKey key x acc) acc
        = xs.foldl (fun acc x => insertByKey key x acc) (insertByKey key x acc) := rfl
    rw [step]
    refine (ih _).trans ?_
    refine (((insertByKey_perm key x acc).append_right xs).trans ?_)
    exact (List.perm_middle).symm

lemma stableSortBy_length (key : α → ℤ) (l : List α) :
    (stableSortBy key l).length = l.length :=
  (stableSortBy_perm key l).length_eq

/-- A static synergy rule.  The prose `description` and `mechanism` fields of
the source table are omitted: the analyzer's logic never reads them. -/
structure SynergyRule where
  ids : List String
  name : String
  type : String
  strength : String
  evidenceLevel : String
  deriving DecidableEq, Repr

/-- `SYNERGY_DB` — the static rule table (all 21 rules, in declaration
order). -/
def SYNERGY_DB : List SynergyRule :=
  [ { ids := ["nac", "glycine"], name := "GlyNAC Protocol",
      type := "biochemical-synergy", strength := "strong", evidenceLevel := "strong" },
    { ids := ["vitamin-d3-k2", "magnesium"], name := "Vitamin D Activation Triad",
      type := "cofactor-dependency", strength := "strong", evidenceLevel := "strong" },
    { ids := ["magnesium", "taurine", "glycine"], name := "GABAergic Convergence",
      type := "GABAergic-convergence", strength := "moderate", evidenceLevel := "moderate" },
    { ids := ["magnesium", "taurine"], name := "Dual Inhibitory Support",
      type := "GABAergic-synergy", strength := "moderate", evidenceLevel := "moderate" },
    { ids := ["magnesium", "glycine"], name := "Relaxation & Sleep Support",
      type := "complementary-mechanisms", strength := "moderate", evidenceLevel := "moderate" },
    { ids := ["curcumin", "omega-3"], name := "Anti-Inflammatory Convergence",
      type := "anti-inflammatory-convergence", strength := "strong", evidenceLevel := "strong" },
    { ids := ["l-tyrosine", "elvanse"], name := "Dopamine Substrate Replenishment",
      type := "substrate-replenishment", strength := "strong", evidenceLevel := "moderate" },
    { ids := ["l-tyrosine", "ritalin"], name := "Dopamine Precursor Support",
      type := "substrate-replenishment", strength := "moderate", evidenceLevel := "moderate" },
    { ids := ["ashwagandha", "magnesium"], name := "HPA Axis Modulation",
      type := "HPA-axis-modulation", strength := "moderate", evidenceLevel := "moderate" },
    { ids := ["myo-inositol", "magnesium"], name := "Anxiolytic Synergy",
      type := "anxiolytic-synergy", strength := "moderate", evidenceLevel := "moderate" },
    { ids := ["trazodone", "melatonin"], name := "Complementary Sleep Mechanisms",
      type := "complementary-sleep-mechanisms", strength := "strong", evidenceLevel := "strong" },
    { ids := ["creatine-monohydrate", "magnesium"], name := "ATP Production Support",
      type := "energy-metabolism", strength := "moderate", evidenceLevel := "moderate" },
    { ids := ["creatine-monohydrate", "omega-3"], name := "Neuroprotective Stack",
      type := "neuroprotective-synergy", strength := "moderate", evidenceLevel := "emerging" },
    { ids := ["berberine", "gn-digestive-enzymes"], name := "Metabolic Optimization",
      type := "metabolic-optimization", strength := "moderate", evidenceLevel := "moderate" },
    { ids := ["elvanse", "huperzine-a"], name := "Dual Neurotransmitter Enhancement",
      type := "dual-neurotransmitter", strength := "moderate", evidenceLevel := "emerging" },
    { ids := ["coenzyme-q10", "omega-3"], name := "Mitochondrial & Membrane Support",
      type := "cellular-health", strength := "moderate", evidenceLevel := "moderate" },
    { ids := ["lions-mane", "huperzine-a"], name := "Cholinergic & Neurotrophic Stack",
      type := "cognitive-synergy", strength := "moderate", evidenceLevel := "emerging" },
    { ids := ["lions-mane", "omega-3"], name := "Brain Structure & Growth",
      type := "neurotrophic-synergy", strength := "moderate", evidenceLevel := "emerging" },
    { ids := ["ashwagandha", "l-tyrosine"], name := "Stress-Resilient Performance",
      type := "adaptogenic-synergy", strength := "moderate", evidenceLevel := "moderate" },
    { ids := ["nac", "coenzyme-q10"], name := "Antioxidant & Mitochondrial Synergy",
      type := "cellular-defense", strength := "moderate", evidenceLevel := "moderate" },
    { ids := ["creatine-monohydrate", "l-tyrosine"], name := "Cognitive Energy Stack",
      type := "cognitive-energy", strength := "moderate", evidenceLevel := "emerging" } ]

/-- A matched rule as pushed by `detectSynergies`: the rule's own fields
(JS spread) plus the resolved `supplementNames`. -/
structure FoundSynergy where
  ids : List String
  name : String
  type : String
  strength : String
  evidenceLevel : String
  supplementNames : List String
  deriving DecidableEq, Repr

/-- The per-rule body of `detectSynergies`: a rule fires when every one of
its ids is among the selected ids (`matchCount === synergy.ids.length`);
names are resolved from the actual selected items when available, else the
raw id. -/
def synergyEntryFor (supplements : List Supplement) (synergy : SynergyRule) :
    Option FoundSynergy :=
  let ids := supplements.map Supplement.id
  let matchCount := (synergy.ids.filter (fun id => ids.contains id)).length
  if matchCount = synergy.ids.length then
    some { ids := synergy.ids, name := synergy.name, type := synergy.type,
           strength := synergy.strength, evidenceLevel := synergy.evidenceLevel,
           supplementNames := synergy.ids.map (fun id =>
             match supplements.find? (fun sup => sup.id == id) with
             | some s => s.name
             | none => id) }
  else none

/-- `detectSynergies(supplements)` — the rule table in declaration order,
keeping the fired rules. -/
def detectSynergies (supplements : List Supplement) : List FoundSynergy :=
  SYNERGY_DB.filterMap (synergyEntryFor supplements)

/-- A directed interaction record emitted by `detectInteractions`.  The JS
fields `from`/`to` are called `fromName`/`toName` here (`from` is a Lean
keyword). -/
structure InteractionRecord where
  fromName : String
  toName : String
  substance : String
  effect : String
  severity : String
  deriving DecidableEq, Repr

/-- The fuzzy match of one declaration's `substance` against another selected
supplement `s` (the body of the `supplements.find` callback). -/
def matchCondition (supp s : Supplement) (substance : String) : Bool :=
  s.id != supp.id && (
    jsIncludes (jsToLower s.name) (jsToLower substance) ||
    s.aliases.any (fun a => jsIncludes (jsToLower a) (jsToLower substance)) ||
    jsIncludes (jsToLower substance) (jsToLower s.name) ||
    jsIncludes (jsToLower substance) (jsToLower (firstToken s.name)))

/-- JS `[a, b].sort()` on two strings (default lexicographic order). -/
def sortPair (a b : String) : List String :=
  if listLe a.data b.data then [a, b] else [b, a]

/-- JS `list.join(':')`. -/
def joinColon : List String → String
  | [] => ""
  | [a] => a
  | a :: rest => a ++ ":" ++ joinColon rest

/-- Dedup key: `[supp.id, matched.id].sort().join(':') + ':' + substance`. -/
def interactionKey (suppId matchedId substance : String) : String :=
  joinColon (sortPair suppId matchedId) ++ ":" ++ substance

/-- The JS number lookup `severityOrder[severity]` on the object
`{ severe: 0, moderate: 1, mild: 2 }` (absent key gives `undefined`). -/
def severityOrder (severity : String) : Option Nat :=
  if severity = "severe" then some 0
  else if severity = "moderate" then some 1
  else if severity = "mild" then some 2
  else none

/-- JS `x || d` on a number-or-undefined: both `undefined` and the number `0`
are falsy and yield `d`. -/
def jsOrNum (x : Option Nat) (d : Nat) : Nat :=
  match x with
  | none => d
  | some v => if v = 0 then d else v

/-- The comparator key of the final severity sort:
`severityOrder[r.severity] || 3`. -/
def severitySortKey (r : InteractionRecord) : ℤ :=
  (jsOrNum (severityOrder r.severity) 3 : ℤ)

/-- Discovery phase of `detectInteractions`: records in discovery order
together with the `seen` dedup key set. -/
def detectInteractionsAux (supplements : List Supplement) :
    List InteractionRecord × List String :=
  supplements.foldl (fun acc supp =>
    supp.interactions.foldl (fun acc2 interaction =>
      match supplements.find? (fun s => matchCondition supp s interaction.substance) with
      | none => acc2
      | some matchedSupp =>
        let key := interactionKey supp.id matchedSupp.id interaction.substance
        if acc2.2.contains key then acc2
        else (acc2.1 ++ [{ fromName := supp.name, toName := matchedSupp.name,
                           substance := interaction.substance,
                           effect := interaction.effect,
                           severity := interaction.severity }],
              acc2.2 ++ [key])) acc) ([], [])

/-- `detectInteractions(supplements)`: discovery, dedup, then the stable sort
by `severityOrder[severity] || 3`. -/
def detectInteractions (supplements : List Supplement) : List InteractionRecord :=
  stableSortBy severitySortKey (detectInteractionsAux supplements).1

/-- One aggregated benefit / side-effect entry. -/
structure BenefitEntry where
  text : String
  sources : List String
  deriving DecidableEq, Repr

/-- The dedup key: `text.substring(0, 40).toLowerCase()`. -/
def dedupKey (text : String) : String :=
  jsToLower (jsTake text 40)

/-- One step of building the keyed map (a JS object whose string keys keep
insertion order): first occurrence of a key creates the entry, later
occurrences append the source name if not already present. -/
def addKeyed (m : List (String × BenefitEntry)) (key text source : String) :
    List (String × BenefitEntry) :=
  match m with
  | [] => [(key, { text := text, sources := [source] })]
  | (k, e) :: rest =>
    if k = key then
      (k, if e.sources.contains source then e
          else { e with sources := e.sources ++ [source] }) :: rest
    else (k, e) :: addKeyed rest key text source

/-- `aggregateBenefits(supplements)` (`Object.values` of the keyed map). -/
def aggregateBenefits (supplements : List Supplement) : List BenefitEntry :=
  (supplements.foldl (fun m supp =>
    supp.benefits.foldl (fun m2 benefit =>
      addKeyed m2 (dedupKey benefit) benefit supp.name) m) []).map Prod.snd

/-- `aggregateSideEffects(supplements)` — identical logic over side effects. -/
def aggregateSideEffects (supplements : List Supplement) : List BenefitEntry :=
  (supplements.foldl (fun m supp =>
    supp.sideEffects.foldl (fun m2 effect =>
      addKeyed m2 (dedupKey effect) effect supp.name) m) []).map Prod.snd

/-- Bump a tier tally key: `tiers[t] = (tiers[t] || 0) + 1` on a JS object,
keys in insertion order. -/
def assocBump : List (String × Nat) → String → List (String × Nat)
  | [], k => [(k, 1)]
  | (k', v) :: rest, k =>
    if k' = k then (k', v + 1) :: rest else (k', v) :: assocBump rest k

/-- The `totals` object of `aggregateEvidence`. -/
structure EvidenceTotals where
  totalStudies : Nat
  totalHuman : Nat
  totalRCTs : Nat
  totalMeta : Nat
  totalSR : Nat
  deriving DecidableEq, Repr

/-- A `{ name, assessment }` element of `strongest` / `weakest`. -/
structure ScoredSupp where
  name : String
  assessment : Assessment
  deriving DecidableEq, Repr

/-- A `{ name, id, assessment }` element of `individualScores`. -/
structure ScoredSuppId where
  name : String
  id : String
  assessment : Assessment
  deriving DecidableEq, Repr

/-- The result object of `aggregateEvidence`. -/
structure EvidenceAggregate where
  avgScore : ℤ
  tierInfo : TierInfo
  tiers : List (String × Nat)
  totals : EvidenceTotals
  strongest : List ScoredSupp
  weakest : List ScoredSupp
  individualScores : List ScoredSuppId
  deriving Repr

/-- `aggregateEvidence(supplements)`.  `slice(0, 3)` is `take 3`;
`slice(-3)` is `drop (length - 3)` (ℕ subtraction models the clamp). -/
noncomputable def aggregateEvidence (supplements : List Supplement) : EvidenceAggregate :=
  let totalScore : ℤ := (supplements.map (fun s => (assess s.evidence).score)).sum
  let tiers := supplements.foldl (fun t s => assocBump t (assess s.evidence).tier)
    [("S", 0), ("A", 0), ("B", 0), ("C", 0), ("D", 0)]
  let avgScore : ℤ :=
    if 0 < supplements.length then
      round ((totalScore : ℝ) / (supplements.length : ℝ))
    else 0
  let sorted := stableSortBy (fun s => -(calculateScore s.evidence)) supplements
  { avgScore := avgScore,
    tierInfo := getTier avgScore,
    tiers := tiers,
    totals :=
      { totalStudies := (supplements.map (fun s => jsOr0 s.evidence.totalStudies)).sum,
        totalHuman := (supplements.map (fun s => jsOr0 s.evidence.humanStudies)).sum,
        totalRCTs := (supplements.map (fun s => jsOr0 s.evidence.rcts)).sum,
        totalMeta := (supplements.map (fun s => jsOr0 s.evidence.metaAnalyses)).sum,
        totalSR := (supplements.map (fun s => jsOr0 s.evidence.systematicReviews)).sum },
    strongest := (sorted.take 3).map (fun s =>
      { name := s.name, assessment := assess s.evidence }),
    weakest := ((sorted.drop (sorted.length - 3)).reverse).map (fun s =>
      { name := s.name, assessment := assess s.evidence }),
    individualScores := supplements.map (fun s =>
      { name := s.name, id := s.id, assessment := assess s.evidence }) }

/-- One entry of the category-coverage object (keyed by `cat.id` in the
source; kept in the catalog's iteration order here). -/
structure CoverageEntry where
  category : Category
  rating : ℤ
  maxRating : ℤ
  supplements : List String
  count : Nat
  deriving Repr

/-- The per-category body of `analyzeCategoryCoverage`: contributing items
give `2 + score/33` potency each; the rating is
`Math.min(10, Math.round(potency))`; a category with no contributing item
produces no entry. -/
noncomputable def coverageEntryFor (supplements : List Supplement)
    (cat : Category) : Option CoverageEntry :=
  let contributing := supplements.filter (fun s => s.categories.contains cat.id)
  if 0 < contributing.length then
    some { category := cat,
           rating := min 10 (round (contributing.foldl
             (fun acc s => acc + (2 + (calculateScore s.evidence : ℝ) / 33)) 0)),
           maxRating := 10,
           supplements := contributing.map Supplement.name,
           count := contributing.length }
  else none

/-- `analyzeCategoryCoverage(supplements)` iterates the category table in
order, keeping the entries of covered categories. -/
noncomputable def analyzeCategoryCoverage (allCategories : List Category)
    (supplements : List Supplement) : List CoverageEntry :=
  allCategories.filterMap (coverageEntryFor supplements)

/-- A rule-generated safety warning. -/
structure Warning where
  severity : String
  text : String
  deriving DecidableEq, Repr

/-- `generateWarnings(supplements)` — the fixed, ordered rule sequence. -/
def generateWarnings (supplements : List Supplement) : List Warning :=
  let meds := supplements.filter (fun s => s.categories.contains "medication")
  let medsWarning : List Warning :=
    if 0 < meds.length then
      [{ severity := "severe",
         text := "This stack contains " ++ toString meds.length ++
           " prescription medication" ++ (if 1 < meds.length then "s" else "") ++
           " (" ++ String.intercalate ", " (meds.map Supplement.name) ++
           "). Always consult a physician before combining supplements with prescription drugs." }]
    else []
  let severeInteractions :=
    (detectInteractions supplements).filter (fun i => i.severity == "severe")
  let interactionWarnings : List Warning := severeInteractions.map (fun i =>
    { severity := "severe",
      text := "Severe interaction: " ++ i.fromName ++ " × " ++ i.toName ++
        " — " ++ i.effect })
  let cholinergics := supplements.filter (fun s =>
    s.id == "huperzine-a" ||
    jsIncludes (jsToLower s.mechanismOfAction) "acetylcholinesterase")
  let cholinergicWarning : List Warning :=
    if 1 < cholinergics.length then
      [{ severity := "moderate",
         text := "Multiple cholinergic compounds detected (" ++
           String.intercalate ", " (cholinergics.map Supplement.name) ++
           "). Monitor for cholinergic side effects (GI discomfort, headache)." }]
    else []
  let stimulants := supplements.filter (fun s => ["elvanse", "ritalin"].contains s.id)
  let stimulantWarning : List Warning :=
    if 1 < stimulants.length then
      [{ severity := "severe",
         text := "Multiple stimulant medications detected (" ++
           String.intercalate ", " (stimulants.map Supplement.name) ++
           "). Never combine stimulant medications without explicit medical supervision." }]
    else []
  let serotonergics := supplements.filter (fun s =>
    s.id == "trazodone" ||
    jsIncludes (jsToLower s.mechanismOfAction) "serotonin" ||
    jsIncludes (jsToLower s.mechanismOfAction) "5-ht")
  let serotonergicWarning : List Warning :=
    if 2 < serotonergics.length then
      [{ severity := "moderate",
         text := "Multiple serotonergic compounds detected (" ++
           String.intercalate ", " (serotonergics.map Supplement.name) ++
           "). Monitor for potential serotonergic effects when combining." }]
    else []
  let largeWarning : List Warning :=
    if 10 < supplements.length then
      [{ severity := "mild",
         text := "This is a large stack (" ++ toString supplements.length ++
           " supplements). Consider starting with core components and adding others gradually to identify individual responses and tolerance." }]
    else []
  medsWarning ++ interactionWarnings ++ cholinergicWarning ++ stimulantWarning ++
    serotonergicWarning ++ largeWarning

/-- Per-item dosing configuration tracked by the builder. -/
structure Config where
  dose : String
  unit : String
  timing : String
  withFood : String
  frequency : String
  notes : String
  deriving DecidableEq, Repr

/-- `defaultConfig()`. -/
def defaultConfig : Config :=
  { dose := "", unit := "mg", timing := "", withFood := "", frequency := "",
    notes := "" }

/-- One element of the builder's `selectedSupplements` state:
`{ supplement, config }`. -/
structure StackEntry where
  supplement : Supplement
  config : Config
  deriving DecidableEq, Repr

/-- One entry of `generateDosageSummary`. -/
structure DosageSummaryEntry where
  name : String
  id : String
  standard : String
  optimal : String
  timing : String
  config : Config
  deriving DecidableEq, Repr

/-- `generateDosageSummary` reads the module-level `selectedSupplements`;
modelled by passing that state explicitly. -/
def generateDosageSummary (selectedSupplements : List StackEntry) :
    List DosageSummaryEntry :=
  selectedSupplements.map (fun entry =>
    { name := entry.supplement.name, id := entry.supplement.id,
      standard := entry.supplement.dosage.standard,
      optimal := entry.supplement.dosage.optimal,
      timing := entry.supplement.dosage.timing,
      config := entry.config })

/-- The AnalysisReport returned by `analyzeStack` (`costEstimate` is the JS
literal `null`). -/
structure AnalysisReport where
  categoryCoverage : List CoverageEntry
  synergies : List FoundSynergy
  interactions : List InteractionRecord
  benefits : List BenefitEntry
  sideEffects : List BenefitEntry
  evidence : EvidenceAggregate
  warnings : List Warning
  dosageSummary : List DosageSummaryEntry
  costEstimate : Option ℤ
  deriving Repr

/-- `analyzeStack()` — the analysis entry point.  The module state
(`allCategories`, `selectedSupplements`) is passed explicitly; the JS
`return null` on an empty selection is `none`. -/
noncomputable def analyzeStack (allCategories : List Category)
    (selectedSupplements : List StackEntry) : Option AnalysisReport :=
  if selectedSupplements.length = 0 then none
  else
    let supplements := selectedSupplements.map StackEntry.supplement
    some { categoryCoverage := analyzeCategoryCoverage allCategories supplements,
           synergies := detectSynergies supplements,
           interactions := detectInteractions supplements,
           benefits := aggregateBenefits supplements,
           sideEffects := aggregateSideEffects supplements,
           evidence := aggregateEvidence supplements,
           warnings := generateWarnings supplements,
           dosageSummary := generateDosageSummary selectedSupplements,
           costEstimate := none }

end SuppEncy

namespace SuppEncy

/-- Evidence object with every field absent. -/
def evNone : Evidence :=
  { totalStudies := none, humanStudies := none, rcts := none,
    metaAnalyses := none, systematicReviews := none }

/-- Item declaring a mild interaction (discovered first) and a severe one
(discovered second), both resolving against `betaSupp`. -/
def alphaSupp : Supplement :=
  { id := "alpha", name := "Alpha", aliases := [], categories := [],
    evidence := evNone, mechanismOfAction := "",
    dosage := { standard := "", optimal := "", timing := "" },
    interactions :=
      [ { substance := "beta", effect := "Mild effect", severity := "mild" },
        { substance := "Beta Extra", effect := "Severe effect", severity := "severe" } ],
    benefits := [], sideEffects := [] }

def betaSupp : Supplement :=
  { id := "beta", name := "Beta", aliases := [], categories := [],
    evidence := evNone, mechanismOfAction := "",
    dosage := { standard := "", optimal := "", timing := "" },
    interactions := [], benefits := [], sideEffects := [] }

/-- Item declaring an interaction whose `substance` is the empty string. -/
def gammaSupp : Supplement :=
  { id := "gamma", name := "Gamma", aliases := [], categories := [],
    evidence := evNone, mechanismOfAction := "",
    dosage := { standard := "", optimal := "", timing := "" },
    interactions :=
      [ { substance := "", effect := "Empty substance effect", severity := "moderate" } ],
    benefits := [], sideEffects := [] }

def deltaSupp : Supplement :=
  { id := "delta", name := "Delta", aliases := [], categories := [],
    evidence := evNone, mechanismOfAction := "",
    dosage := { standard := "", optimal := "", timing := "" },
    interactions := [], benefits := [], sideEffects := [] }

def xSupp : Supplement :=
  { id := "x", name := "X", aliases := [], categories := [],
    evidence := evNone, mechanismOfAction := "",
    dosage := { standard := "", optimal := "", timing := "" },
    interactions := [], benefits := ["Reduces cortisol by 14–28%"],
    sideEffects := [] }

def ySupp : Supplement :=
  { id := "y", name := "Y", aliases := [], categories := [],
    evidence := evNone, mechanismOfAction := "",
    dosage := { standard := "", optimal := "", timing := "" },
    interactions := [], benefits := ["Reduces cortisol by 14–30%, improves mood"],
    sideEffects := [] }

def nacSupp : Supplement :=
  { id := "nac", name := "NAC", aliases := ["N-Acetyl Cysteine"], categories := [],
    evidence := evNone, mechanismOfAction := "",
    dosage := { standard := "", optimal := "", timing := "" },
    interactions := [], benefits := [], sideEffects := [] }

def glycineSupp : Supplement :=
  { id := "glycine", name := "Glycine", aliases := [], categories := [],
    evidence := evNone, mechanismOfAction := "",
    dosage := { standard := "", optimal := "", timing := "" },
    interactions := [], benefits := [], sideEffects := [] }

end SuppEncy

namespace SuppEncy

lemma length_filter_eq_iff {α : Type} (p : α → Bool) (l : List α) :
    ((l.filter p).length = l.length) ↔ ∀ x ∈ l, p x := by
  constructor
  · intro h x hx
    have hs : l.filter p = l :=
      (List.filter_sublist l).eq_of_length_le (le_of_eq h.symm)
    exact List.filter_eq_self.mp hs x hx
  · intro h
    rw [List.filter_eq_self.mpr h]

lemma synergyEntryFor_some_name (sel : List Supplement) (r : SynergyRule)
    (f : FoundSynergy) (h : synergyEntryFor sel r = some f) : f.name = r.name := by
  simp only [synergyEntryFor] at h
  split at h
  · cases h
    rfl
  · cases h

lemma synergyEntryFor_some_cond (sel : List Supplement) (r : SynergyRule)
    (f : FoundSynergy) (h : synergyEntryFor sel r = some f) :
    (r.ids.filter (fun id => (sel.map Supplement.id).contains id)).length =
      r.ids.length := by
  simp only [synergyEntryFor] at h
  split at h
  · assumption
  · cases h

lemma synergyEntryFor_none_cond (sel : List Supplement) (r : SynergyRule)
    (h : synergyEntryFor sel r = none) :
    ¬ (r.ids.filter (fun id => (sel.map Supplement.id).contains id)).length =
        r.ids.length := by
  simp only [synergyEntryFor] at h
  split at h
  · cases h
  · assumption

/-- The reported synergies are, by name and in rule order, exactly the rules
whose whole id set is contained in the selection's id set. -/
lemma detectSynergies_names (sel : List Supplement) :
    (detectSynergies sel).map FoundSynergy.name =
      (SYNERGY_DB.filter (fun r =>
        r.ids.all (fun id => (sel.map Supplement.id).contains id))).map
        SynergyRule.name := by
  unfold detectSynergies
  induction SYNERGY_DB with
  | nil => rfl
  | cons r L ih =>
    cases hE : synergyEntryFor sel r with
    | none =>
      have hall : (r.ids.all (fun id => (sel.map Supplement.id).contains id)) = false := by
        rw [Bool.eq_false_iff]
        intro hc
        exact synergyEntryFor_none_cond sel r hE
          ((length_filter_eq_iff _ _).mpr (List.all_eq_true.mp hc))
      rw [List.filterMap_cons, hE]
      dsimp only
      rw [List.filter_cons_of_neg (p :=
        fun r : SynergyRule => r.ids.all fun id => (sel.map Supplement.id).contains id)
        (by show ¬ (r.ids.all fun id => (sel.map Supplement.id).contains id) = true
            rw [hall]
            exact Bool.false_ne_true)]
      exact ih
    | some f =>
      have hall : (r.ids.all (fun id => (sel.map Supplement.id).contains id)) = true :=
        List.all_eq_true.mpr
          ((length_filter_eq_iff _ _).mp (synergyEntryFor_some_cond sel r f hE))
      rw [List.filterMap_cons, hE]
      dsimp only
      rw [List.filter_cons_of_pos (p :=
        fun r : SynergyRule => r.ids.all fun id => (sel.map Supplement.id).contains id)
        hall]
      simp only [List.map_cons, synergyEntryFor_some_name sel r f hE, ih]

lemma foldl_add_map_sum {α : Type} (g : α → ℝ) (l : List α) (init : ℝ) :
    l.foldl (fun acc s => acc + g s) init = init + (l.map g).sum := by
  induction l generalizing init with
  | nil => simp
  | cons a l ih =>
    rw [List.foldl_cons, ih, List.map_cons, List.sum_cons]
    ring

end SuppEncy

namespace SuppEncy

/-- Claim C1 (code bug): in `detectInteractions`, the sort key
`severityOrder[a.severity] || 3` sends the rank 0 of `severe` to the
catch-all rank 3 (0 is falsy in JS), so severe records sort after moderate
and mild ones — here the mild record (discovery order first) precedes the
severe record in the final list, contradicting the intended
severe-moderate-mild order. -/
theorem claim1_severe_sorted_last :
    detectInteractions [alphaSupp, betaSupp] =
      [ { fromName := "Alpha", toName := "Beta", substance := "beta",
          effect := "Mild effect", severity := "mild" },
        { fromName := "Alpha", toName := "Beta", substance := "Beta Extra",
          effect := "Severe effect", severity := "severe" } ] := by
  decide

/-- Claim C2, counterexample: `calculateScore` does return 100 — already for
200 meta-analyses (raw = 2000, so the sigmoid argument is `1 − e^(−10)` and
`round(100·(1 − e^(−10))) = 100`), refuting the half-open range `[0, 100)`. -/
theorem claim2_counterexample : calculateScore evMeta200 = 100 :=
  calculateScore_evMeta200

/-- Claim C2, amended: for every evidence-count input, `calculateScore`
returns an integer in the closed interval `[0, 100]`; the value 100 is
attained for large counts. -/
theorem claim2_score_in_closed_range (evidence : Evidence) :
    0 ≤ calculateScore evidence ∧ calculateScore evidence ≤ 100 :=
  ⟨calculateScore_nonneg evidence, calculateScore_le_100 evidence⟩

/-- Claim C5: `calculateScore` is monotonically non-decreasing in every
individual count field (stated componentwise over the `|| 0`-read values,
which subsumes increasing one field while holding the others fixed). -/
theorem claim5_monotone (e e' : Evidence)
    (hm : jsOr0 e.metaAnalyses ≤ jsOr0 e'.metaAnalyses)
    (hs : jsOr0 e.systematicReviews ≤ jsOr0 e'.systematicReviews)
    (hr : jsOr0 e.rcts ≤ jsOr0 e'.rcts)
    (hh : jsOr0 e.humanStudies ≤ jsOr0 e'.humanStudies) :
    calculateScore e ≤ calculateScore e' :=
  calculateScore_mono (rawScore_mono hm hs hr hh)

/-- Witness for C5 at the concrete inputs `evNone ≤ evMeta200`. -/
theorem claim5_witness :
    jsOr0 evNone.metaAnalyses ≤ jsOr0 evMeta200.metaAnalyses ∧
    jsOr0 evNone.systematicReviews ≤ jsOr0 evMeta200.systematicReviews ∧
    jsOr0 evNone.rcts ≤ jsOr0 evMeta200.rcts ∧
    jsOr0 evNone.humanStudies ≤ jsOr0 evMeta200.humanStudies ∧
    calculateScore evNone ≤ calculateScore evMeta200 :=
  ⟨by decide, by decide, by decide, by decide,
    claim5_monotone evNone evMeta200 (by decide) (by decide) (by decide) (by decide)⟩

/-- Claim C6: a synergy rule is reported as fired exactly when every one of
its ids is among the selected ids (extra selected ids allowed); for the
selection {nac, glycine} exactly the "GlyNAC Protocol" synergy fires, and
either item alone fires none. -/
theorem claim6_fires_iff_subset :
    (∀ sel : List Supplement,
      (detectSynergies sel).map FoundSynergy.name =
        (SYNERGY_DB.filter (fun r =>
          r.ids.all (fun id => (sel.map Supplement.id).contains id))).map
          SynergyRule.name)
    ∧ (detectSynergies [nacSupp, glycineSupp]).map FoundSynergy.name =
        ["GlyNAC Protocol"]
    ∧ detectSynergies [nacSupp] = []
    ∧ detectSynergies [glycineSupp] = [] :=
  ⟨detectSynergies_names, by decide, by decide, by decide⟩

/-- Claim C8: on an empty selection the analysis entry point returns the
defined empty result `null` (`none`) — no report, hence no synergies,
interactions or warnings — and (being a total function) does not throw. -/
theorem claim8_empty_selection (allCategories : List Category) :
    analyzeStack allCategories [] = none :=
  rfl

end SuppEncy

namespace SuppEncy

/-- Claim C3, counterexample: a declaration with empty `substance` is not a
guarded no-op — the source has no guard, and in JS every string contains the
empty string, so it matches the first other selected item and contributes a
record. -/
theorem claim3_counterexample :
    detectInteractions [gammaSupp, deltaSupp] =
      [ { fromName := "Gamma", toName := "Delta", substance := "",
          effect := "Empty substance effect", severity := "moderate" } ] := by
  decide

/-- Claim C3, amended: an InteractionDeclaration whose `substance` is the
empty string is not skipped: the empty string is a substring of every name,
so the declaration matches the first other selected item and contributes
exactly one interaction record (and no error is raised — the matcher is
total). -/
theorem claim3_empty_substance_matches (A B : Supplement) (eff sev : String)
    (hne : A.id ≠ B.id)
    (hA : A.interactions = [{ substance := "", effect := eff, severity := sev }])
    (hB : B.interactions = []) :
    detectInteractions [A, B] =
      [ { fromName := A.name, toName := B.name, substance := "",
          effect := eff, severity := sev } ] := by
  have hAA : matchCondition A A "" = false := by
    simp [matchCondition]
  have hAB : matchCondition A B "" = true := by
    have h1 : (B.id != A.id) = true := by
      simp [bne_iff_ne]
      exact Ne.symm hne
    simp [matchCondition, h1, jsToLower_empty, jsIncludes_empty]
  have hfind : List.find? (fun s => matchCondition A s "") [A, B] = some B := by
    rw [List.find?_cons_of_neg (p := fun s => matchCondition A s "") _ (by simp [hAA]),
      List.find?_cons_of_pos (p := fun s => matchCondition A s "") _
        (by show matchCondition A B "" = true; exact hAB)]
  unfold detectInteractions detectInteractionsAux
  rw [List.foldl_cons, List.foldl_cons, List.foldl_nil, hA, hB]
  rw [List.foldl_cons, List.foldl_nil, List.foldl_nil]
  dsimp only
  rw [hfind]
  dsimp only
  simp [stableSortBy, insertByKey]

/-- Witness for C3 at the concrete items `gammaSupp`, `deltaSupp`. -/
theorem claim3_witness :
    gammaSupp.id ≠ deltaSupp.id ∧
    gammaSupp.interactions =
      [{ substance := "", effect := "Empty substance effect", severity := "moderate" }] ∧
    deltaSupp.interactions = [] ∧
    detectInteractions [gammaSupp, deltaSupp] =
      [ { fromName := gammaSupp.name, toName := deltaSupp.name, substance := "",
          effect := "Empty substance effect", severity := "moderate" } ] :=
  ⟨by decide, by decide, by decide,
    claim3_empty_substance_matches gammaSupp deltaSupp
      "Empty substance effect" "moderate" (by decide) (by decide) (by decide)⟩

/-- Claim C4, counterexample: the two quoted benefit strings do NOT share the
same lower-cased 40-character dedup key (they differ already at "14–28" vs
"14–30"), and aggregating them produces two entries, not one. -/
theorem claim4_counterexample :
    (aggregateBenefits [xSupp, ySupp]).length = 2 ∧
    dedupKey "Reduces cortisol by 14–28%" ≠
      dedupKey "Reduces cortisol by 14–30%, improves mood" := by
  constructor
  · decide
  · decide

/-- Claim C4, amended: because the two strings differ inside their first 40
characters, their dedup keys differ and benefit aggregation keeps them as two
separate entries, each listing only its own item as source (entries merge
only when the lower-cased 40-character prefixes coincide). -/
theorem claim4_two_entries :
    aggregateBenefits [xSupp, ySupp] =
      [ { text := "Reduces cortisol by 14–28%", sources := ["X"] },
        { text := "Reduces cortisol by 14–30%, improves mood", sources := ["Y"] } ] := by
  decide

end SuppEncy

namespace SuppEncy

lemma coverageEntryFor_some (supplements : List Supplement) (cat : Category)
    (e : CoverageEntry) (h : coverageEntryFor supplements cat = some e) :
    0 < (supplements.filter (fun s => s.categories.contains cat.id)).length ∧
    e = { category := cat,
          rating := min 10 (round ((supplements.filter
            (fun s => s.categories.contains cat.id)).foldl
            (fun acc s => acc + (2 + (calculateScore s.evidence : ℝ) / 33)) 0)),
          maxRating := 10,
          supplements := (supplements.filter
            (fun s => s.categories.contains cat.id)).map Supplement.name,
          count := (supplements.filter
            (fun s => s.categories.contains cat.id)).length } := by
  simp only [coverageEntryFor] at h
  split at h
  · exact ⟨by assumption, (Option.some.inj h).symm⟩
  · cases h

lemma coverageEntryFor_eq_some_of_pos (supplements : List Supplement)
    (cat : Category)
    (h : 0 < (supplements.filter (fun s => s.categories.contains cat.id)).length) :
    coverageEntryFor supplements cat =
      some { category := cat,
             rating := min 10 (round ((supplements.filter
               (fun s => s.categories.contains cat.id)).foldl
               (fun acc s => acc + (2 + (calculateScore s.evidence : ℝ) / 33)) 0)),
             maxRating := 10,
             supplements := (supplements.filter
               (fun s => s.categories.contains cat.id)).map Supplement.name,
             count := (supplements.filter
               (fun s => s.categories.contains cat.id)).length } := by
  simp only [coverageEntryFor]
  rw [if_pos h]

/-- Claim C7: a category appears in the coverage output iff some selected item
lists it, and every entry for it carries
`rating = min(10, round(Σ (2 + score/33)))`, `maxRating = 10`, and a rating
never exceeding 10. -/
theorem claim7_coverage (allCategories : List Category)
    (supplements : List Supplement) (c : Category) (hc : c ∈ allCategories) :
    ((∃ e ∈ analyzeCategoryCoverage allCategories supplements,
        e.category.id = c.id) ↔ ∃ s ∈ supplements, c.id ∈ s.categories)
    ∧ (∀ e ∈ analyzeCategoryCoverage allCategories supplements,
        e.category.id = c.id →
          e.rating = min 10 (round (((supplements.filter
            (fun s => s.categories.contains c.id)).map
            (fun s => (2 : ℝ) + (calculateScore s.evidence : ℝ) / 33)).sum))
          ∧ e.maxRating = 10 ∧ e.rating ≤ 10) := by
  constructor
  · constructor
    · rintro ⟨e, he, hid⟩
      obtain ⟨cat, hcat, hsome⟩ := List.mem_filterMap.mp he
      obtain ⟨hpos, hE⟩ := coverageEntryFor_some supplements cat e hsome
      subst hE
      have hid' : cat.id = c.id := hid
      obtain ⟨s, hs⟩ := List.exists_mem_of_length_pos hpos
      rw [List.mem_filter] at hs
      refine ⟨s, hs.1, ?_⟩
      have hcontains := hs.2
      rw [hid'] at hcontains
      simpa using hcontains
    · rintro ⟨s, hsmem, hsc⟩
      have hpos :
          0 < (supplements.filter (fun s => s.categories.contains c.id)).length := by
        apply List.length_pos_of_mem
        exact List.mem_filter.mpr ⟨hsmem, by simpa using hsc⟩
      exact ⟨_, List.mem_filterMap.mpr
        ⟨c, hc, coverageEntryFor_eq_some_of_pos supplements c hpos⟩, rfl⟩
  · intro e he hid
    obtain ⟨cat, hcat, hsome⟩ := List.mem_filterMap.mp he
    obtain ⟨hpos, hE⟩ := coverageEntryFor_some supplements cat e hsome
    subst hE
    have hid' : cat.id = c.id := hid
    refine ⟨?_, rfl, ?_⟩
    · show min 10 (round ((supplements.filter
        (fun s => s.categories.contains cat.id)).foldl
        (fun acc s => acc + (2 + (calculateScore s.evidence : ℝ) / 33)) 0)) = _
      rw [hid', foldl_add_map_sum, zero_add]
    · exact min_le_left _ _

/-- Each mapped potency term is at least 2, so the sum is at least `2·count`. -/
lemma two_mul_length_le_potency_sum (l : List Supplement) :
    (2 * l.length : ℝ) ≤
      ((l.map (fun s => (2 : ℝ) + (calculateScore s.evidence : ℝ) / 33)).sum) := by
  induction l with
  | nil => simp
  | cons a l ih =>
    rw [List.map_cons, List.sum_cons, List.length_cons]
    have hscore : (0 : ℝ) ≤ (calculateScore a.evidence : ℝ) := by
      exact_mod_cast calculateScore_nonneg a.evidence
    push_cast
    push_cast at ih
    nlinarith

/-- Claim C9: every reported coverage entry has
`rating ≥ min(10, 2·count)`, hence `rating ≥ 2`. -/
theorem claim9_rating_lower_bound (allCategories : List Category)
    (supplements : List Supplement) :
    ∀ e ∈ analyzeCategoryCoverage allCategories supplements,
      min 10 (2 * (e.count : ℤ)) ≤ e.rating ∧ 2 ≤ e.rating := by
  intro e he
  obtain ⟨cat, hcat, hsome⟩ := List.mem_filterMap.mp he
  obtain ⟨hpos, hE⟩ := coverageEntryFor_some supplements cat e hsome
  subst hE
  have hsum := two_mul_length_le_potency_sum
    (supplements.filter (fun s => s.categories.contains cat.id))
  have hround : (2 * ((supplements.filter
        (fun s => s.categories.contains cat.id)).length : ℤ)) ≤
      round ((supplements.filter (fun s => s.categories.contains cat.id)).foldl
        (fun acc s => acc + (2 + (calculateScore s.evidence : ℝ) / 33)) 0) := by
    rw [foldl_add_map_sum, zero_add]
    have hcast : ((2 * ((supplements.filter
        (fun s => s.categories.contains cat.id)).length : ℤ) : ℤ) : ℝ) =
        (2 * (supplements.filter
          (fun s => s.categories.contains cat.id)).length : ℝ) := by
      push_cast
      ring
    calc (2 * ((supplements.filter
          (fun s => s.categories.contains cat.id)).length : ℤ))
        = round ((2 * ((supplements.filter
            (fun s => s.categories.contains cat.id)).length : ℤ) : ℤ) : ℝ) := by
          rw [round_intCast]
      _ ≤ round ((supplements.filter
            (fun s => s.categories.contains cat.id)).map
            (fun s => (2 : ℝ) + (calculateScore s.evidence : ℝ) / 33)).sum := by
          apply round_mono_of_le
          rw [hcast]
          exact hsum
  have hmin : min 10 (2 * ((supplements.filter
      (fun s => s.categories.contains cat.id)).length : ℤ)) ≤
      min 10 (round ((supplements.filter
        (fun s => s.categories.contains cat.id)).foldl
        (fun acc s => acc + (2 + (calculateScore s.evidence : ℝ) / 33)) 0)) :=
    min_le_min (le_refl 10) hround
  constructor
  · exact hmin
  · have hone : (1 : ℤ) ≤ ((supplements.filter
        (fun s => s.categories.contains cat.id)).length : ℤ) := by
      exact_mod_cast hpos
    have h2 : (2 : ℤ) ≤ min 10 (2 * ((supplements.filter
        (fun s => s.categories.contains cat.id)).length : ℤ)) := by
      apply le_min
      · norm_num
      · linarith
    exact h2.trans hmin

end SuppEncy

namespace SuppEncy

/-- Claim C10: with at most three selected items, the 3-element windows
`slice(0, 3)` and `slice(-3).reverse()` both cover the whole sorted array, so
`weakest` is exactly `strongest` reversed and both list all `n` items. -/
theorem claim10_strongest_weakest (supplements : List Supplement)
    (hne : supplements ≠ []) (hlen : supplements.length ≤ 3) :
    (aggregateEvidence supplements).weakest =
      (aggregateEvidence supplements).strongest.reverse ∧
    (aggregateEvidence supplements).strongest.length = supplements.length := by
  have hslen : (stableSortBy (fun s => -(calculateScore s.evidence)) supplements).length
      = supplements.length := stableSortBy_length _ _
  have hstrong : (aggregateEvidence supplements).strongest =
      ((stableSortBy (fun s => -(calculateScore s.evidence)) supplements).take 3).map
        (fun s => { name := s.name, assessment := assess s.evidence }) := rfl
  have hweak : (aggregateEvidence supplements).weakest =
      (((stableSortBy (fun s => -(calculateScore s.evidence)) supplements).drop
        ((stableSortBy (fun s => -(calculateScore s.evidence))
          supplements).length - 3)).reverse).map
        (fun s => { name := s.name, assessment := assess s.evidence }) := rfl
  rw [hstrong, hweak]
  have h3 : (stableSortBy (fun s => -(calculateScore s.evidence))
      supplements).length ≤ 3 := by
    rw [hslen]
    exact hlen
  rw [List.take_of_length_le h3, Nat.sub_eq_zero_of_le h3, List.drop_zero]
  constructor
  · rw [List.map_reverse]
  · rw [List.length_map, hslen]

/-- Witness for C10 at the concrete two-item selection. -/
theorem claim10_witness :
    ([nacSupp, glycineSupp] : List Supplement) ≠ [] ∧
    ([nacSupp, glycineSupp] : List Supplement).length ≤ 3 ∧
    ((aggregateEvidence [nacSupp, glycineSupp]).weakest =
        (aggregateEvidence [nacSupp, glycineSupp]).strongest.reverse ∧
      (aggregateEvidence [nacSupp, glycineSupp]).strongest.length =
        ([nacSupp, glycineSupp] : List Supplement).length) :=
  ⟨by decide, by decide,
    claim10_strongest_weakest [nacSupp, glycineSupp] (by decide) (by decide)⟩

/-- Test category and a single item covering it. -/
def sleepCat : Category := { id := "sleep", name := "Sleep", icon := "", color := "" }

def epsilonSupp : Supplement :=
  { id := "epsilon", name := "Epsilon", aliases := [], categories := ["sleep"],
    evidence := evNone, mechanismOfAction := "",
    dosage := { standard := "", optimal := "", timing := "" },
    interactions := [], benefits := [], sideEffects := [] }

/-- The coverage entry produced for `sleepCat` by the selection `[epsilonSupp]`. -/
noncomputable def sleepEntry : CoverageEntry :=
  { category := sleepCat,
    rating := min 10 (round ((0 : ℝ) +
      (2 + (calculateScore epsilonSupp.evidence : ℝ) / 33))),
    maxRating := 10, supplements := ["Epsilon"], count := 1 }

lemma sleepEntry_mem :
    sleepEntry ∈ analyzeCategoryCoverage [sleepCat] [epsilonSupp] := by
  show sleepEntry ∈ [sleepEntry]
  exact List.mem_singleton.mpr rfl

/-- Witness for C9 at the concrete entry. -/
theorem claim9_witness :
    sleepEntry ∈ analyzeCategoryCoverage [sleepCat] [epsilonSupp] ∧
    (min 10 (2 * (sleepEntry.count : ℤ)) ≤ sleepEntry.rating ∧
      2 ≤ sleepEntry.rating) :=
  ⟨sleepEntry_mem,
    claim9_rating_lower_bound [sleepCat] [epsilonSupp] sleepEntry sleepEntry_mem⟩

/-- Witness for C7 at the concrete category, catalog and selection. -/
theorem claim7_witness :
    sleepCat ∈ [sleepCat] ∧
    (((∃ e ∈ analyzeCategoryCoverage [sleepCat] [epsilonSupp],
          e.category.id = sleepCat.id) ↔
        ∃ s ∈ [epsilonSupp], sleepCat.id ∈ s.categories)
      ∧ (∀ e ∈ analyzeCategoryCoverage [sleepCat] [epsilonSupp],
          e.category.id = sleepCat.id →
            e.rating = min 10 (round ((([epsilonSupp].filter
              (fun s => s.categories.contains sleepCat.id)).map
              (fun s => (2 : ℝ) + (calculateScore s.evidence : ℝ) / 33)).sum))
            ∧ e.maxRating = 10 ∧ e.rating ≤ 10)) :=
  ⟨List.mem_singleton.mpr rfl,
    claim7_coverage [sleepCat] [epsilonSupp] sleepCat (List.mem_singleton.mpr rfl)⟩

end SuppEncy
